import Mathlib

/-!
Verification development for the smart-ppe-compliance-checker repository.

The detector pipeline (src/ppe_detector.py) is embedded as pure functions over
an explicit `PPEDetectionResult` structure; Python floats are modelled as exact
rationals (the only numeric operations involved — max, comparison against 0.5
and 75.0, and the score `count / 4 * 100` — are exact in binary floating point
for the values that occur, so ℚ is a faithful model).  The alert service
(src/alert_service.py) is embedded with the external messaging SDK calls
abstracted as transport oracles, and Python exceptions modelled with `Except`;
numeric/time string formatting (`:.1f`, `:.1%`, `strftime`) is abstracted as a
formatting oracle.  Optional values (`None`) are modelled with `Option`, and
Python string truthiness (empty string is falsy) is modelled explicitly.
-/

namespace SmartPPE

set_option maxRecDepth 40000

/-- Python `str.lower()` restricted to ASCII case mapping (all class labels and
department keys in this code base are ASCII). -/
def pyLowerChar (c : Char) : Char :=
  if 65 ≤ c.toNat ∧ c.toNat ≤ 90 then Char.ofNat (c.toNat + 32) else c

/-- Python `str.lower()` on a whole string. -/
def pyLower (s : String) : String := ⟨s.data.map pyLowerChar⟩

/-- Auxiliary scan for the Python substring operator. -/
def pyInAux (needle : List Char) : List Char → Bool
  | [] => needle.isEmpty
  | c :: t => needle.isPrefixOf (c :: t) || pyInAux needle t

/-- Python `needle in haystack` on strings (substring containment). -/
def pyIn (needle haystack : String) : Bool := pyInAux needle.data haystack.data

/-- src/schemas.py, `PPEDetectionResult`: four PPE categories with a detected
flag and a confidence each, plus the derived compliance fields.  Field defaults
mirror the pydantic defaults. -/
structure PPEDetectionResult where
  helmet_detected : Bool := false
  mask_detected : Bool := false
  gloves_detected : Bool := false
  jacket_detected : Bool := false
  helmet_confidence : ℚ := 0
  mask_confidence : ℚ := 0
  gloves_confidence : ℚ := 0
  jacket_confidence : ℚ := 0
  is_compliant : Bool := false
  compliance_score : ℚ := 0
deriving DecidableEq

/-- One entry of the Roboflow `predictions` list, as consumed by
`_process_roboflow_response`: the `class` and `confidence` keys are read with
`dict.get` defaults `''` and `0.0`, so both are modelled as optional. -/
structure RawPrediction where
  class? : Option String
  confidence? : Option ℚ

/-- The lowered class label: Python `prediction.get('class', '').lower()`. -/
def RawPrediction.class_name (p : RawPrediction) : String := pyLower (p.class?.getD "")

/-- Python `prediction.get('confidence', 0.0)`. -/
def RawPrediction.confidence (p : RawPrediction) : ℚ := p.confidence?.getD 0

/-- src/ppe_detector.py lines 19-24, `self.ppe_classes`: category → synonym
list, in Python dict insertion order. -/
def ppe_classes : List (String × List String) :=
  [("helmet", ["helmet", "hard_hat", "safety_helmet"]),
   ("mask", ["mask", "face_mask", "respirator", "n95"]),
   ("gloves", ["gloves", "safety_gloves", "work_gloves"]),
   ("jacket", ["jacket", "safety_jacket", "high_visibility", "hi_vis", "vest"])]

/-- src/ppe_detector.py lines 27-32, `self.confidence_thresholds`. -/
def confidence_thresholds : List (String × ℚ) :=
  [("helmet", 0.5), ("mask", 0.5), ("gloves", 0.5), ("jacket", 0.5)]

/-- src/ppe_detector.py lines 115-128, `_update_ppe_result`. -/
def update_ppe_result (result : PPEDetectionResult) (ppe_type : String)
    (confidence : ℚ) : PPEDetectionResult :=
  if ppe_type = "helmet" then
    { result with helmet_detected := true,
                  helmet_confidence := max result.helmet_confidence confidence }
  else if ppe_type = "mask" then
    { result with mask_detected := true,
                  mask_confidence := max result.mask_confidence confidence }
  else if ppe_type = "gloves" then
    { result with gloves_detected := true,
                  gloves_confidence := max result.gloves_confidence confidence }
  else if ppe_type = "jacket" then
    { result with jacket_detected := true,
                  jacket_confidence := max result.jacket_confidence confidence }
  else result

/-- The body of the per-prediction loop of `_process_roboflow_response`
(src/ppe_detector.py lines 100-108): for each category in `ppe_classes`, if any
synonym is a substring of the lowered label and the confidence reaches the
category's threshold, update the result.  (The threshold lookup cannot miss:
every `ppe_classes` key is a `confidence_thresholds` key; `getD 0` is the
unreachable default standing in for Python's KeyError.) -/
def processPrediction (result : PPEDetectionResult) (p : RawPrediction) :
    PPEDetectionResult :=
  let class_name := p.class_name
  let confidence := p.confidence
  ppe_classes.foldl (fun r tv =>
    if tv.2.any (fun variant => pyIn variant class_name) then
      if confidence ≥ (confidence_thresholds.lookup tv.1).getD 0 then
        update_ppe_result r tv.1 confidence
      else r
    else r) result

/-- src/ppe_detector.py lines 130-151, `_calculate_compliance`. -/
def calculate_compliance (result : PPEDetectionResult) : PPEDetectionResult :=
  let required_ppe : List String := ["helmet", "mask", "gloves", "jacket"]
  let detected_ppe : List String :=
    (if result.helmet_detected then ["helmet"] else []) ++
    (if result.mask_detected then ["mask"] else []) ++
    (if result.gloves_detected then ["gloves"] else []) ++
    (if result.jacket_detected then ["jacket"] else [])
  let compliance_score : ℚ := (detected_ppe.length : ℚ) / (required_ppe.length : ℚ) * 100
  { result with compliance_score := compliance_score,
                is_compliant := decide (compliance_score ≥ 75) }

/-- src/ppe_detector.py lines 89-113, `_process_roboflow_response`: `none`
models a response without a `'predictions'` key (early return of the default
result, not passed through `_calculate_compliance`). -/
def process_roboflow_response (predictions? : Option (List RawPrediction)) :
    PPEDetectionResult :=
  match predictions? with
  | none => {}
  | some predictions =>
      calculate_compliance (predictions.foldl processPrediction {})

/-- The category names, in the order used by the detector. -/
def ppeCategories : List String := ["helmet", "mask", "gloves", "jacket"]

/-- Category-indexed view of the detected flag. -/
def detOf (c : String) (r : PPEDetectionResult) : Bool :=
  if c = "helmet" then r.helmet_detected
  else if c = "mask" then r.mask_detected
  else if c = "gloves" then r.gloves_detected
  else if c = "jacket" then r.jacket_detected
  else false

/-- Category-indexed view of the recorded confidence. -/
def confOf (c : String) (r : PPEDetectionResult) : ℚ :=
  if c = "helmet" then r.helmet_confidence
  else if c = "mask" then r.mask_confidence
  else if c = "gloves" then r.gloves_confidence
  else if c = "jacket" then r.jacket_confidence
  else 0

/-- The synonym list of a category. -/
def variantsOf (c : String) : List String := (ppe_classes.lookup c).getD []

/-- Acceptance of a raw prediction into a category, exactly as tested by the
loop of `_process_roboflow_response`: some synonym of the category is a
substring of the lowered label, and the confidence reaches the category's
threshold. -/
def accepts (c : String) (p : RawPrediction) : Bool :=
  (variantsOf c).any (fun variant => pyIn variant p.class_name) &&
  decide (p.confidence ≥ (confidence_thresholds.lookup c).getD 0)

/-- The number of categories with `detected = true`. -/
def detectedCount (r : PPEDetectionResult) : ℕ :=
  (if r.helmet_detected then 1 else 0) + (if r.mask_detected then 1 else 0) +
  (if r.gloves_detected then 1 else 0) + (if r.jacket_detected then 1 else 0)

example : pyIn "hard_hat" (pyLower "Hard_Hat") = true := by decide
example : pyIn "vest" "safety_gloves" = false := by decide

/-- The effect of one category check of the prediction loop, with the two
nested guards fused into `accepts`. -/
def acceptStep (c : String) (p : RawPrediction) (r : PPEDetectionResult) :
    PPEDetectionResult :=
  if accepts c p then update_ppe_result r c p.confidence else r

theorem if_if_eq_and {α : Sort u} (a : Bool) (q : Prop) [Decidable q] (x y : α) :
    (if a then (if q then x else y) else y) = if a && decide q then x else y := by
  by_cases h : q <;> cases a <;> simp [h]

theorem variantsOf_helmet : variantsOf "helmet" = ["helmet", "hard_hat", "safety_helmet"] := rfl

theorem variantsOf_mask : variantsOf "mask" = ["mask", "face_mask", "respirator", "n95"] := rfl

theorem variantsOf_gloves : variantsOf "gloves" = ["gloves", "safety_gloves", "work_gloves"] := rfl

theorem variantsOf_jacket : variantsOf "jacket" = ["jacket", "safety_jacket", "high_visibility", "hi_vis", "vest"] := rfl

/-- The per-prediction loop is the composition of the four category checks. -/
theorem processPrediction_eq (r : PPEDetectionResult) (p : RawPrediction) :
    processPrediction r p =
      acceptStep "jacket" p (acceptStep "gloves" p
        (acceptStep "mask" p (acceptStep "helmet" p r))) := by
  simp only [processPrediction, ppe_classes, List.foldl_cons, List.foldl_nil,
    if_if_eq_and, acceptStep, accepts, variantsOf_helmet, variantsOf_mask,
    variantsOf_gloves, variantsOf_jacket]

/-- Membership in `ppeCategories`, unpacked. -/
theorem mem_ppeCategories {c : String} (hc : c ∈ ppeCategories) :
    c = "helmet" ∨ c = "mask" ∨ c = "gloves" ∨ c = "jacket" := by
  simpa [ppeCategories] using hc

theorem detOf_processPrediction (c : String) (hc : c ∈ ppeCategories)
    (p : RawPrediction) (r : PPEDetectionResult) :
    detOf c (processPrediction r p) = (detOf c r || accepts c p) := by
  rcases mem_ppeCategories hc with rfl | rfl | rfl | rfl <;>
    (rw [processPrediction_eq]
     cases h1 : accepts "helmet" p <;> cases h2 : accepts "mask" p <;>
       cases h3 : accepts "gloves" p <;> cases h4 : accepts "jacket" p <;>
       simp [acceptStep, update_ppe_result, detOf, h1, h2, h3, h4])

theorem confOf_processPrediction (c : String) (hc : c ∈ ppeCategories)
    (p : RawPrediction) (r : PPEDetectionResult) :
    confOf c (processPrediction r p) =
      (if accepts c p then max (confOf c r) p.confidence else confOf c r) := by
  rcases mem_ppeCategories hc with rfl | rfl | rfl | rfl <;>
    (rw [processPrediction_eq]
     cases h1 : accepts "helmet" p <;> cases h2 : accepts "mask" p <;>
       cases h3 : accepts "gloves" p <;> cases h4 : accepts "jacket" p <;>
       simp [acceptStep, update_ppe_result, confOf, h1, h2, h3, h4])

theorem detOf_foldl (c : String) (hc : c ∈ ppeCategories)
    (preds : List RawPrediction) (r : PPEDetectionResult) :
    detOf c (preds.foldl processPrediction r) =
      (detOf c r || preds.any (fun p => accepts c p)) := by
  induction preds generalizing r with
  | nil => simp
  | cons p t ih =>
      simp [List.foldl_cons, ih, detOf_processPrediction c hc, List.any_cons,
        Bool.or_assoc]

theorem confOf_foldl (c : String) (hc : c ∈ ppeCategories)
    (preds : List RawPrediction) (r : PPEDetectionResult) :
    confOf c (preds.foldl processPrediction r) =
      ((preds.filter (fun p => accepts c p)).map RawPrediction.confidence).foldl
        max (confOf c r) := by
  induction preds generalizing r with
  | nil => rfl
  | cons p t ih =>
      rw [List.foldl_cons, ih, confOf_processPrediction c hc]
      cases h : accepts c p <;>
        simp [List.filter_cons, h, List.map_cons, List.foldl_cons]

theorem detOf_calculate_compliance (c : String) (r : PPEDetectionResult) :
    detOf c (calculate_compliance r) = detOf c r := by
  unfold detOf calculate_compliance
  split_ifs <;> rfl

theorem confOf_calculate_compliance (c : String) (r : PPEDetectionResult) :
    confOf c (calculate_compliance r) = confOf c r := by
  unfold confOf calculate_compliance
  split_ifs <;> rfl

theorem detOf_default (c : String) : detOf c {} = false := by
  unfold detOf
  split_ifs <;> rfl

theorem confOf_default (c : String) : confOf c {} = 0 := by
  unfold confOf
  split_ifs <;> rfl

/-- The detected flag of a category after the whole normalizer run: some
prediction was accepted into the category. -/
theorem detOf_process (c : String) (hc : c ∈ ppeCategories)
    (preds : List RawPrediction) :
    detOf c (process_roboflow_response (some preds)) =
      preds.any (fun p => accepts c p) := by
  rw [process_roboflow_response, detOf_calculate_compliance,
    detOf_foldl c hc, detOf_default, Bool.false_or]

/-- The confidence of a category after the whole normalizer run: the running
maximum (from 0.0) of the confidences of the accepted predictions. -/
theorem confOf_process (c : String) (hc : c ∈ ppeCategories)
    (preds : List RawPrediction) :
    confOf c (process_roboflow_response (some preds)) =
      ((preds.filter (fun p => accepts c p)).map RawPrediction.confidence).foldl
        max 0 := by
  rw [process_roboflow_response, confOf_calculate_compliance,
    confOf_foldl c hc, confOf_default]

theorem calculate_compliance_score (r : PPEDetectionResult) :
    (calculate_compliance r).compliance_score = (detectedCount r : ℚ) / 4 * 100 := by
  rcases r with ⟨hd, md, gd, jd, hc, mc, gc, jc, ic, cs⟩
  cases hd <;> cases md <;> cases gd <;> cases jd <;>
    simp [calculate_compliance, detectedCount]

theorem calculate_compliance_compliant (r : PPEDetectionResult) :
    ((calculate_compliance r).is_compliant = true ↔
      (calculate_compliance r).compliance_score ≥ 75) := by
  simp [calculate_compliance]

theorem detectedCount_cases (r : PPEDetectionResult) :
    detectedCount r = 0 ∨ detectedCount r = 1 ∨ detectedCount r = 2 ∨
      detectedCount r = 3 ∨ detectedCount r = 4 := by
  rcases r with ⟨hd, md, gd, jd, hc, mc, gc, jc, ic, cs⟩
  cases hd <;> cases md <;> cases gd <;> cases jd <;> simp [detectedCount]

theorem calculate_compliance_detectedCount (r : PPEDetectionResult) :
    detectedCount (calculate_compliance r) = detectedCount r := rfl

theorem process_none : process_roboflow_response none = {} := rfl

/-- C1: every result of the normalizer/evaluator pipeline has
`compliance_score = detectedCount / 4 * 100`, a score in {0, 25, 50, 75, 100},
and `is_compliant` exactly when the score is at least 75, equivalently when at
least 3 of the 4 categories are detected. -/
theorem C1_compliance_invariant (predictions? : Option (List RawPrediction)) :
    (process_roboflow_response predictions?).compliance_score =
        (detectedCount (process_roboflow_response predictions?) : ℚ) / 4 * 100 ∧
    ((process_roboflow_response predictions?).compliance_score = 0 ∨
     (process_roboflow_response predictions?).compliance_score = 25 ∨
     (process_roboflow_response predictions?).compliance_score = 50 ∨
     (process_roboflow_response predictions?).compliance_score = 75 ∨
     (process_roboflow_response predictions?).compliance_score = 100) ∧
    ((process_roboflow_response predictions?).is_compliant = true ↔
      (process_roboflow_response predictions?).compliance_score ≥ 75) ∧
    ((process_roboflow_response predictions?).is_compliant = true ↔
      3 ≤ detectedCount (process_roboflow_response predictions?)) := by
  have key : ∀ s : PPEDetectionResult,
      (calculate_compliance s).compliance_score =
          (detectedCount (calculate_compliance s) : ℚ) / 4 * 100 ∧
      ((calculate_compliance s).compliance_score = 0 ∨
       (calculate_compliance s).compliance_score = 25 ∨
       (calculate_compliance s).compliance_score = 50 ∨
       (calculate_compliance s).compliance_score = 75 ∨
       (calculate_compliance s).compliance_score = 100) ∧
      ((calculate_compliance s).is_compliant = true ↔
        (calculate_compliance s).compliance_score ≥ 75) ∧
      ((calculate_compliance s).is_compliant = true ↔
        3 ≤ detectedCount (calculate_compliance s)) := by
    intro s
    have hsc := calculate_compliance_score s
    have hcc := calculate_compliance_compliant s
    rw [calculate_compliance_detectedCount] at *
    refine ⟨by rw [hsc], ?_, hcc, ?_⟩
    · rcases detectedCount_cases s with h | h | h | h | h <;> rw [hsc, h] <;> norm_num
    · rw [hcc, hsc]
      rcases detectedCount_cases s with h | h | h | h | h <;> rw [h] <;> norm_num
  match predictions? with
  | none =>
      rw [process_none]
      refine ⟨by norm_num [detectedCount], by norm_num, ?_, ?_⟩ <;>
        simp [detectedCount]
  | some preds =>
      rw [process_roboflow_response]
      exact key (preds.foldl processPrediction {})

theorem threshold_helmet : (confidence_thresholds.lookup "helmet").getD 0 = 0.5 := rfl

theorem threshold_mask : (confidence_thresholds.lookup "mask").getD 0 = 0.5 := rfl

theorem threshold_gloves : (confidence_thresholds.lookup "gloves").getD 0 = 0.5 := rfl

theorem threshold_jacket : (confidence_thresholds.lookup "jacket").getD 0 = 0.5 := rfl

theorem detOf_helmet (r : PPEDetectionResult) : detOf "helmet" r = r.helmet_detected := rfl

theorem detOf_mask (r : PPEDetectionResult) : detOf "mask" r = r.mask_detected := rfl

theorem detOf_gloves (r : PPEDetectionResult) : detOf "gloves" r = r.gloves_detected := rfl

theorem detOf_jacket (r : PPEDetectionResult) : detOf "jacket" r = r.jacket_detected := rfl

theorem confOf_helmet (r : PPEDetectionResult) : confOf "helmet" r = r.helmet_confidence := rfl

theorem confOf_mask (r : PPEDetectionResult) : confOf "mask" r = r.mask_confidence := rfl

theorem confOf_gloves (r : PPEDetectionResult) : confOf "gloves" r = r.gloves_confidence := rfl

theorem confOf_jacket (r : PPEDetectionResult) : confOf "jacket" r = r.jacket_confidence := rfl

theorem foldl_max_init_le (l : List ℚ) : ∀ a : ℚ, a ≤ l.foldl max a := by
  induction l with
  | nil => intro a; exact le_refl a
  | cons x t ih =>
      intro a
      exact le_trans (le_max_left a x) (ih (max a x))

theorem le_foldl_max_of_mem {x : ℚ} (l : List ℚ) (a : ℚ) (h : x ∈ l) :
    x ≤ l.foldl max a := by
  induction l generalizing a with
  | nil => cases h
  | cons y t ih =>
      rcases List.mem_cons.mp h with rfl | hmem
      · exact le_trans (le_max_right a x) (foldl_max_init_le t (max a x))
      · exact ih (max a y) hmem

/-- The evaluator step of the pipeline, in isolation: the score of the
produced result in terms of its own detected count. -/
theorem process_some_score (preds : List RawPrediction) :
    (process_roboflow_response (some preds)).compliance_score =
      (detectedCount (process_roboflow_response (some preds)) : ℚ) / 4 * 100 := by
  rw [process_roboflow_response, calculate_compliance_score,
    calculate_compliance_detectedCount]

theorem process_some_compliant (preds : List RawPrediction) :
    ((process_roboflow_response (some preds)).is_compliant = true ↔
      (process_roboflow_response (some preds)).compliance_score ≥ 75) := by
  rw [process_roboflow_response]
  exact calculate_compliance_compliant _

/-- C5: a category's recorded confidence is the maximum (running from 0.0) of
the confidences of the accepted detections mapped to it, and appending an
accepted lower-confidence duplicate for an already-detected category never
lowers the recorded confidence. -/
theorem C5_max_aggregation (preds : List RawPrediction) (p : RawPrediction)
    (c : String) (hc : c ∈ ppeCategories) :
    (confOf c (process_roboflow_response (some preds)) =
      ((preds.filter (fun q => accepts c q)).map RawPrediction.confidence).foldl
        max 0) ∧
    (accepts c p = true →
      detOf c (process_roboflow_response (some preds)) = true →
      p.confidence ≤ confOf c (process_roboflow_response (some preds)) →
      confOf c (process_roboflow_response (some preds)) ≤
        confOf c (process_roboflow_response (some (preds ++ [p])))) := by
  refine ⟨confOf_process c hc preds, fun hacc _ _ => ?_⟩
  rw [confOf_process c hc, confOf_process c hc, List.filter_append,
    List.map_append, List.foldl_append]
  have hfilter : List.filter (fun q => accepts c q) [p] = [p] := by
    simp [List.filter_cons, hacc]
  rw [hfilter]
  simp

/-- Witness for C5 at a concrete input: a second helmet detection with lower
confidence 0.6 after one with confidence 0.9. -/
theorem C5_max_aggregation_witness :
    confOf "helmet" (process_roboflow_response
        (some [⟨some "helmet", some 0.9⟩])) ≤
      confOf "helmet" (process_roboflow_response
        (some ([⟨some "helmet", some 0.9⟩] ++ [⟨some "helmet", some 0.6⟩]))) := by
  have hacc9 : accepts "helmet" ⟨some "helmet", some 0.9⟩ = true := by
    rw [accepts, Bool.and_eq_true]
    refine ⟨by decide, ?_⟩
    rw [decide_eq_true_eq, threshold_helmet]
    norm_num [RawPrediction.confidence]
  have hacc6 : accepts "helmet" ⟨some "helmet", some 0.6⟩ = true := by
    rw [accepts, Bool.and_eq_true]
    refine ⟨by decide, ?_⟩
    rw [decide_eq_true_eq, threshold_helmet]
    norm_num [RawPrediction.confidence]
  have hmem : "helmet" ∈ ppeCategories := by simp [ppeCategories]
  have hdet : detOf "helmet" (process_roboflow_response
      (some [⟨some "helmet", some 0.9⟩])) = true := by
    rw [detOf_process "helmet" hmem]
    simp [hacc9]
  have hconf : confOf "helmet" (process_roboflow_response
      (some [⟨some "helmet", some 0.9⟩])) =
      ((List.filter (fun q => accepts "helmet" q) [⟨some "helmet", some 0.9⟩]).map
        RawPrediction.confidence).foldl max 0 :=
    (C5_max_aggregation [⟨some "helmet", some 0.9⟩] ⟨some "helmet", some 0.6⟩
      "helmet" hmem).1
  refine (C5_max_aggregation [⟨some "helmet", some 0.9⟩] ⟨some "helmet", some 0.6⟩
    "helmet" hmem).2 hacc6 hdet ?_
  rw [hconf]
  simp only [List.filter_cons, hacc9, List.filter_nil, List.map_cons,
    List.map_nil, List.foldl_cons, List.foldl_nil]
  norm_num [RawPrediction.confidence, max_def]

/-- C6: a detection is counted into a category exactly when a synonym of the
category is a substring of its lowered label and its confidence reaches 0.5;
a category with no accepted detection keeps detected = false, confidence = 0. -/
theorem C6_acceptance_semantics (preds : List RawPrediction) (c : String)
    (hc : c ∈ ppeCategories) :
    (∀ p : RawPrediction,
      accepts c p =
        ((variantsOf c).any (fun v => pyIn v (pyLower (p.class?.getD ""))) &&
          decide ((1 : ℚ)/2 ≤ p.confidence?.getD 0))) ∧
    (detOf c (process_roboflow_response (some preds)) = true ↔
      ∃ p ∈ preds, accepts c p = true) ∧
    ((∀ p ∈ preds, accepts c p = false) →
      detOf c (process_roboflow_response (some preds)) = false ∧
      confOf c (process_roboflow_response (some preds)) = 0) := by
  refine ⟨?_, ?_, ?_⟩
  · intro p
    rw [accepts]
    congr 1
    rw [decide_eq_decide]
    rcases mem_ppeCategories hc with rfl | rfl | rfl | rfl <;>
      simp only [threshold_helmet, threshold_mask, threshold_gloves,
        threshold_jacket] <;>
      norm_num [RawPrediction.confidence, ge_iff_le]
  · rw [detOf_process c hc]
    simp [List.any_eq_true]
  · intro hnone
    have hany : preds.any (fun p => accepts c p) = false := by
      simp only [List.any_eq_false]
      intro p hp
      simp [hnone p hp]
    have hfilter : preds.filter (fun p => accepts c p) = [] := by
      simp only [List.filter_eq_nil_iff]
      intro p hp
      simp [hnone p hp]
    constructor
    · rw [detOf_process c hc, hany]
    · rw [confOf_process c hc, hfilter]
      rfl

/-- Witness for C6 at the concrete input: one accepted gloves detection. -/
theorem C6_acceptance_semantics_witness :
    detOf "gloves" (process_roboflow_response
        (some [⟨some "safety_gloves", some 0.6⟩])) = true := by
  have hmem : "gloves" ∈ ppeCategories := by simp [ppeCategories]
  have hacc : accepts "gloves" ⟨some "safety_gloves", some 0.6⟩ = true := by
    rw [accepts, Bool.and_eq_true]
    refine ⟨by decide, ?_⟩
    rw [decide_eq_true_eq, threshold_gloves]
    norm_num [RawPrediction.confidence]
  exact (C6_acceptance_semantics [⟨some "safety_gloves", some 0.6⟩] "gloves"
    hmem).2.1.mpr ⟨⟨some "safety_gloves", some 0.6⟩, by simp, hacc⟩

/-- An accepted detection of a proper category carries confidence at least
one half (the uniform threshold). -/
theorem accepts_le_confidence {c : String} {p : RawPrediction}
    (hc : c ∈ ppeCategories) (hacc : accepts c p = true) :
    (1 : ℚ)/2 ≤ p.confidence := by
  rw [accepts, Bool.and_eq_true] at hacc
  have h2 := of_decide_eq_true hacc.2
  rcases mem_ppeCategories hc with rfl | rfl | rfl | rfl <;>
    simp only [threshold_helmet, threshold_mask, threshold_gloves,
      threshold_jacket] at h2 <;>
    linarith

/-- C10: on every branch of `_process_roboflow_response` (including the early
return without a predictions key), an undetected category has confidence 0.0
and a detected category has confidence at least 0.5. -/
theorem C10_detection_confidence_invariant
    (predictions? : Option (List RawPrediction)) (c : String)
    (hc : c ∈ ppeCategories) :
    (detOf c (process_roboflow_response predictions?) = false →
      confOf c (process_roboflow_response predictions?) = 0) ∧
    (detOf c (process_roboflow_response predictions?) = true →
      (1 : ℚ)/2 ≤ confOf c (process_roboflow_response predictions?)) := by
  match predictions? with
  | none =>
      rw [process_none]
      exact ⟨fun _ => confOf_default c,
        fun h => by rw [detOf_default] at h; cases h⟩
  | some preds =>
      constructor
      · intro h
        rw [detOf_process c hc] at h
        rw [confOf_process c hc]
        have hfilter : preds.filter (fun p => accepts c p) = [] := by
          simp only [List.filter_eq_nil_iff]
          intro p hp
          have := List.any_eq_false.mp h p hp
          simpa using this
        rw [hfilter]
        rfl
      · intro h
        rw [detOf_process c hc] at h
        obtain ⟨p, hp, hacc⟩ := List.any_eq_true.mp h
        rw [confOf_process c hc]
        have hconf : (1 : ℚ)/2 ≤ p.confidence := accepts_le_confidence hc hacc
        have hmem : RawPrediction.confidence p ∈
            (preds.filter (fun q => accepts c q)).map RawPrediction.confidence :=
          List.mem_map_of_mem _ (List.mem_filter.mpr ⟨hp, hacc⟩)
        exact le_trans hconf (le_foldl_max_of_mem _ 0 hmem)

/-- Witness for C10: the detected-branch bound at one accepted helmet
detection. -/
theorem C10_detection_confidence_invariant_witness :
    (1 : ℚ)/2 ≤ confOf "helmet" (process_roboflow_response
      (some [⟨some "helmet", some 0.9⟩])) := by
  have hmem : "helmet" ∈ ppeCategories := by simp [ppeCategories]
  have hacc : accepts "helmet" ⟨some "helmet", some 0.9⟩ = true := by
    rw [accepts, Bool.and_eq_true]
    refine ⟨by decide, ?_⟩
    rw [decide_eq_true_eq, threshold_helmet]
    norm_num [RawPrediction.confidence]
  have hdet : detOf "helmet" (process_roboflow_response
      (some [⟨some "helmet", some 0.9⟩])) = true := by
    rw [detOf_process "helmet" hmem]
    simp [hacc]
  exact (C10_detection_confidence_invariant
    (some [⟨some "helmet", some 0.9⟩]) "helmet" hmem).2 hdet

/-- Outcome of the alert-dispatch decision inside
`ComplianceService.check_compliance`. -/
structure AlertFlowOutcome where
  alert_invoked : Bool
  alert_sent : Bool

/-- src/compliance_service.py lines 27-31: `alert_sent = False;
if not detection_result.is_compliant: alert_sent = self._send_compliance_alerts(...)`.
The database writes and the response assembly around it do not affect this
decision; the outcome of `_send_compliance_alerts` is the `send_outcome`
parameter. -/
def check_compliance_alert_flow (detection_result : PPEDetectionResult)
    (send_outcome : Bool) : AlertFlowOutcome :=
  if !detection_result.is_compliant then
    { alert_invoked := true, alert_sent := send_outcome }
  else
    { alert_invoked := false, alert_sent := false }

/-- The spec's compliant scenario: hard_hat 0.9, n95 0.8, safety_gloves 0.6. -/
def scenario_detections : List RawPrediction :=
  [⟨some "hard_hat", some 0.9⟩, ⟨some "n95", some 0.8⟩,
   ⟨some "safety_gloves", some 0.6⟩]

theorem scenario_helmet :
    (process_roboflow_response (some scenario_detections)).helmet_detected = true := by
  have hmem : "helmet" ∈ ppeCategories := by simp [ppeCategories]
  rw [← detOf_helmet, detOf_process "helmet" hmem]
  have hacc : accepts "helmet" ⟨some "hard_hat", some 0.9⟩ = true := by
    rw [accepts, Bool.and_eq_true]
    refine ⟨by decide, ?_⟩
    rw [decide_eq_true_eq, threshold_helmet]
    norm_num [RawPrediction.confidence]
  simp [scenario_detections, hacc]

theorem scenario_mask :
    (process_roboflow_response (some scenario_detections)).mask_detected = true := by
  have hmem : "mask" ∈ ppeCategories := by simp [ppeCategories]
  rw [← detOf_mask, detOf_process "mask" hmem]
  have hacc : accepts "mask" ⟨some "n95", some 0.8⟩ = true := by
    rw [accepts, Bool.and_eq_true]
    refine ⟨by decide, ?_⟩
    rw [decide_eq_true_eq, threshold_mask]
    norm_num [RawPrediction.confidence]
  apply List.any_eq_true.mpr
  exact ⟨⟨some "n95", some 0.8⟩, by simp [scenario_detections], hacc⟩

theorem scenario_gloves :
    (process_roboflow_response (some scenario_detections)).gloves_detected = true := by
  have hmem : "gloves" ∈ ppeCategories := by simp [ppeCategories]
  rw [← detOf_gloves, detOf_process "gloves" hmem]
  have hacc : accepts "gloves" ⟨some "safety_gloves", some 0.6⟩ = true := by
    rw [accepts, Bool.and_eq_true]
    refine ⟨by decide, ?_⟩
    rw [decide_eq_true_eq, threshold_gloves]
    norm_num [RawPrediction.confidence]
  apply List.any_eq_true.mpr
  exact ⟨⟨some "safety_gloves", some 0.6⟩, by simp [scenario_detections], hacc⟩

theorem scenario_jacket :
    (process_roboflow_response (some scenario_detections)).jacket_detected = false := by
  have hmem : "jacket" ∈ ppeCategories := by simp [ppeCategories]
  rw [← detOf_jacket, detOf_process "jacket" hmem]
  have h1 : accepts "jacket" ⟨some "hard_hat", some 0.9⟩ = false := by
    rw [accepts]
    have : (variantsOf "jacket").any (fun v =>
        pyIn v (RawPrediction.class_name ⟨some "hard_hat", some 0.9⟩)) = false := by
      decide
    simp [this]
  have h2 : accepts "jacket" ⟨some "n95", some 0.8⟩ = false := by
    rw [accepts]
    have : (variantsOf "jacket").any (fun v =>
        pyIn v (RawPrediction.class_name ⟨some "n95", some 0.8⟩)) = false := by
      decide
    simp [this]
  have h3 : accepts "jacket" ⟨some "safety_gloves", some 0.6⟩ = false := by
    rw [accepts]
    have : (variantsOf "jacket").any (fun v =>
        pyIn v (RawPrediction.class_name ⟨some "safety_gloves", some 0.6⟩)) = false := by
      decide
    simp [this]
  simp [scenario_detections, h1, h2, h3]

theorem scenario_score :
    (process_roboflow_response (some scenario_detections)).compliance_score = 75 := by
  have hcount : detectedCount (process_roboflow_response (some scenario_detections)) = 3 := by
    rw [detectedCount, scenario_helmet, scenario_mask, scenario_gloves,
      scenario_jacket]
    rfl
  rw [process_some_score, hcount]
  norm_num

theorem scenario_compliant :
    (process_roboflow_response (some scenario_detections)).is_compliant = true := by
  rw [process_some_compliant, scenario_score]

/-- C7: the alert-dispatch step runs exactly on non-compliant results; on the
spec's compliant scenario (hard_hat 0.9, n95 0.8, safety_gloves 0.6 — helmet,
mask, gloves detected, jacket not, score 75, compliant) alerts are not
invoked, while an empty detection list (score 0, non-compliant) invokes them. -/
theorem C7_alert_gate (r : PPEDetectionResult) (send_outcome : Bool) :
    ((check_compliance_alert_flow r send_outcome).alert_invoked = true ↔
      r.is_compliant = false) ∧
    (process_roboflow_response (some scenario_detections)).helmet_detected = true ∧
    (process_roboflow_response (some scenario_detections)).mask_detected = true ∧
    (process_roboflow_response (some scenario_detections)).gloves_detected = true ∧
    (process_roboflow_response (some scenario_detections)).jacket_detected = false ∧
    (process_roboflow_response (some scenario_detections)).compliance_score = 75 ∧
    (process_roboflow_response (some scenario_detections)).is_compliant = true ∧
    (check_compliance_alert_flow (process_roboflow_response
      (some scenario_detections)) send_outcome).alert_invoked = false ∧
    (check_compliance_alert_flow (process_roboflow_response (some []))
      send_outcome).alert_invoked = true := by
  have hempty : (process_roboflow_response (some [])).is_compliant = false := by
    rw [Bool.eq_false_iff]
    intro hcomp
    have := (process_some_compliant []).mp hcomp
    rw [process_some_score] at this
    have hc0 : detectedCount (process_roboflow_response (some [])) = 0 := by
      rfl
    rw [hc0] at this
    norm_num at this
  refine ⟨?_, scenario_helmet, scenario_mask, scenario_gloves, scenario_jacket,
    scenario_score, scenario_compliant, ?_, ?_⟩
  · cases hr : r.is_compliant <;> simp [check_compliance_alert_flow, hr]
  · simp [check_compliance_alert_flow, scenario_compliant]
  · simp [check_compliance_alert_flow, hempty]

/-- The part of src/models.py `PPEComplianceRecord` consumed by the alert
service (renderings and recipient resolution).  Nullable text columns are
`Option String`; the timestamp is abstract and only ever formatted through the
formatting oracle. -/
structure PPEComplianceRecord where
  worker_id : String := ""
  worker_name : String := ""
  timestamp : Nat := 0
  helmet_detected : Bool := false
  mask_detected : Bool := false
  gloves_detected : Bool := false
  jacket_detected : Bool := false
  helmet_confidence : ℚ := 0
  mask_confidence : ℚ := 0
  gloves_confidence : ℚ := 0
  jacket_confidence : ℚ := 0
  is_compliant : Bool := false
  compliance_score : ℚ := 0
  location : Option String := none
  department : Option String := none
  shift : Option String := none

/-- Abstraction of the f-string number/time formatting used by the alert
renderings: `{x:.1f}`, `{x:.1%}` and
`timestamp.strftime('%Y-%m-%d %H:%M:%S')`. -/
structure FmtOracle where
  fmt1f : ℚ → String
  fmtPct : ℚ → String
  strftime : Nat → String

/-- Python `x or default` on an optional string: `None` and the empty string
are falsy. -/
def pyOrStr : Option String → String → String
  | none, d => d
  | some s, d => if s = "" then d else s

/-- One Slack block, covering the shapes built by `_create_slack_blocks`. -/
inductive SlackBlock where
  | header (text : String)
  | sectionFields (fields : List String)
  | sectionText (text : String)
  | divider
deriving DecidableEq

/-- src/alert_service.py lines 62-131, `_create_slack_blocks`.  (The `color`
local of line 65 is computed but never used, and the `message` argument is not
used by the block construction; both are dropped.) -/
def create_slack_blocks (o : FmtOracle) (_message : String)
    (record : PPEComplianceRecord) : List SlackBlock :=
  let ppe_details : List String :=
    [if record.helmet_detected then
       "🪖 Helmet: ✅ (" ++ o.fmtPct record.helmet_confidence ++ ")"
     else "🪖 Helmet: ❌",
     if record.mask_detected then
       "😷 Mask: ✅ (" ++ o.fmtPct record.mask_confidence ++ ")"
     else "😷 Mask: ❌",
     if record.gloves_detected then
       "🧤 Gloves: ✅ (" ++ o.fmtPct record.gloves_confidence ++ ")"
     else "🧤 Gloves: ❌",
     if record.jacket_detected then
       "🦺 Jacket: ✅ (" ++ o.fmtPct record.jacket_confidence ++ ")"
     else "🦺 Jacket: ❌"]
  [SlackBlock.header "🚨 PPE Compliance Alert",
   SlackBlock.sectionFields
     ["*Worker:* " ++ record.worker_name ++ "\n*ID:* " ++ record.worker_id,
      "*Department:* " ++ pyOrStr record.department "Unknown" ++
        "\n*Location:* " ++ pyOrStr record.location "Unknown",
      "*Time:* " ++ o.strftime record.timestamp ++ "\n*Shift:* " ++
        pyOrStr record.shift "Unknown",
      "*Compliance Score:* " ++ o.fmt1f record.compliance_score ++
        "%\n*Status:* " ++
        (if record.is_compliant then "✅ Compliant" else "❌ Non-Compliant")],
   SlackBlock.sectionText ("*PPE Detection Results:*\n" ++
     String.intercalate "\n" ppe_details),
   SlackBlock.divider]

/-- src/alert_service.py lines 234-257, `_create_email_text`: the plain-text
email body, byte for byte (the triple-quoted literal keeps its newlines and
trailing indentation). -/
def create_email_text (o : FmtOracle) (_message : String)
    (record : PPEComplianceRecord) : String :=
  "\nPPE COMPLIANCE ALERT\n===================\n\nWorker: " ++
  record.worker_name ++ " (ID: " ++ record.worker_id ++ ")\nDepartment: " ++
  pyOrStr record.department "Unknown" ++ "\nLocation: " ++
  pyOrStr record.location "Unknown" ++ "\nShift: " ++
  pyOrStr record.shift "Unknown" ++ "\nTime: " ++
  o.strftime record.timestamp ++ "\n\nCompliance Score: " ++
  o.fmt1f record.compliance_score ++ "%\nStatus: " ++
  (if record.is_compliant then "COMPLIANT" else "NON-COMPLIANT") ++
  "\n\nPPE Detection Results:\n- Helmet: " ++
  (if record.helmet_detected then "✅ Detected" else "❌ Missing") ++ " " ++
  (if record.helmet_detected then "(" ++ o.fmtPct record.helmet_confidence ++ ")" else "") ++
  "\n- Mask: " ++
  (if record.mask_detected then "✅ Detected" else "❌ Missing") ++ " " ++
  (if record.mask_detected then "(" ++ o.fmtPct record.mask_confidence ++ ")" else "") ++
  "\n- Gloves: " ++
  (if record.gloves_detected then "✅ Detected" else "❌ Missing") ++ " " ++
  (if record.gloves_detected then "(" ++ o.fmtPct record.gloves_confidence ++ ")" else "") ++
  "\n- Jacket: " ++
  (if record.jacket_detected then "✅ Detected" else "❌ Missing") ++ " " ++
  (if record.jacket_detected then "(" ++ o.fmtPct record.jacket_confidence ++ ")" else "") ++
  "\n\nPlease take appropriate action to ensure worker safety compliance.\n        "

/-- src/alert_service.py lines 167-232, `_create_email_html`: the HTML email
body, byte for byte (literal braces of the CSS are written as \x7b and \x7d). -/
def create_email_html (o : FmtOracle) (_message : String)
    (record : PPEComplianceRecord) : String :=
  let status_color := if record.is_compliant then "#28a745" else "#dc3545"
  let status_text := if record.is_compliant then "COMPLIANT" else "NON-COMPLIANT"
  "\n        <!DOCTYPE html>\n        <html>\n        <head>\n            <style>\n                body \x7b font-family: Arial, sans-serif; margin: 0; padding: 20px; \x7d\n                .container \x7b max-width: 600px; margin: 0 auto; \x7d\n                .header \x7b background-color: " ++
  status_color ++
  "; color: white; padding: 20px; text-align: center; \x7d\n                .content \x7b padding: 20px; background-color: #f8f9fa; \x7d\n                .details \x7b background-color: white; padding: 15px; margin: 10px 0; border-radius: 5px; \x7d\n                .ppe-item \x7b margin: 5px 0; \x7d\n                .compliant \x7b color: #28a745; \x7d\n                .non-compliant \x7b color: #dc3545; \x7d\n            </style>\n        </head>\n        <body>\n            <div class=\"container\">\n                <div class=\"header\">\n                    <h1>🚨 PPE Compliance Alert</h1>\n                    <h2>Status: " ++
  status_text ++
  "</h2>\n                </div>\n                <div class=\"content\">\n                    <div class=\"details\">\n                        <h3>Worker Information</h3>\n                        <p><strong>Name:</strong> " ++
  record.worker_name ++
  "</p>\n                        <p><strong>ID:</strong> " ++
  record.worker_id ++
  "</p>\n                        <p><strong>Department:</strong> " ++
  pyOrStr record.department "Unknown" ++
  "</p>\n                        <p><strong>Location:</strong> " ++
  pyOrStr record.location "Unknown" ++
  "</p>\n                        <p><strong>Shift:</strong> " ++
  pyOrStr record.shift "Unknown" ++
  "</p>\n                        <p><strong>Time:</strong> " ++
  o.strftime record.timestamp ++
  "</p>\n                    </div>\n                    \n                    <div class=\"details\">\n                        <h3>Compliance Score: " ++
  o.fmt1f record.compliance_score ++
  "%</h3>\n                    </div>\n                    \n                    <div class=\"details\">\n                        <h3>PPE Detection Results</h3>\n                        <div class=\"ppe-item\">\n                            🪖 Helmet: " ++
  (if record.helmet_detected then "<span class=\"compliant\">✅ Detected</span>"
   else "<span class=\"non-compliant\">❌ Missing</span>") ++
  "\n                            " ++
  (if record.helmet_detected then
    " (Confidence: " ++ o.fmtPct record.helmet_confidence ++ ")" else "") ++
  "\n                        </div>\n                        <div class=\"ppe-item\">\n                            😷 Mask: " ++
  (if record.mask_detected then "<span class=\"compliant\">✅ Detected</span>"
   else "<span class=\"non-compliant\">❌ Missing</span>") ++
  "\n                            " ++
  (if record.mask_detected then
    " (Confidence: " ++ o.fmtPct record.mask_confidence ++ ")" else "") ++
  "\n                        </div>\n                        <div class=\"ppe-item\">\n                            🧤 Gloves: " ++
  (if record.gloves_detected then "<span class=\"compliant\">✅ Detected</span>"
   else "<span class=\"non-compliant\">❌ Missing</span>") ++
  "\n                            " ++
  (if record.gloves_detected then
    " (Confidence: " ++ o.fmtPct record.gloves_confidence ++ ")" else "") ++
  "\n                        </div>\n                        <div class=\"ppe-item\">\n                            🦺 Jacket: " ++
  (if record.jacket_detected then "<span class=\"compliant\">✅ Detected</span>"
   else "<span class=\"non-compliant\">❌ Missing</span>") ++
  "\n                            " ++
  (if record.jacket_detected then
    " (Confidence: " ++ o.fmtPct record.jacket_confidence ++ ")" else "") ++
  "\n                        </div>\n                    </div>\n                </div>\n            </div>\n        </body>\n        </html>\n        "

/-- src/alert_service.py lines 274-293: the WhatsApp message text (note: it
has Department, Location and Time lines, but no Shift line). -/
def whatsapp_message (o : FmtOracle) (record : PPEComplianceRecord) : String :=
  "\n🚨 *PPE Compliance Alert*\n\n*Worker:* " ++ record.worker_name ++
  "\n*ID:* " ++ record.worker_id ++
  "\n*Department:* " ++ pyOrStr record.department "Unknown" ++
  "\n*Location:* " ++ pyOrStr record.location "Unknown" ++
  "\n*Time:* " ++ o.strftime record.timestamp ++
  "\n\n*Compliance Score:* " ++ o.fmt1f record.compliance_score ++
  "%\n*Status:* " ++
  (if record.is_compliant then "✅ Compliant" else "❌ Non-Compliant") ++
  "\n\n*PPE Detection:*\n🪖 Helmet: " ++
  (if record.helmet_detected then "✅" else "❌") ++
  "\n😷 Mask: " ++ (if record.mask_detected then "✅" else "❌") ++
  "\n🧤 Gloves: " ++ (if record.gloves_detected then "✅" else "❌") ++
  "\n🦺 Jacket: " ++ (if record.jacket_detected then "✅" else "❌") ++
  "\n\nPlease take immediate action if non-compliant.\n            "

/-- The default email recipients of `_get_alert_recipients`. -/
def email_default_recipients : List String :=
  ["safety@yourcompany.com", "supervisor@yourcompany.com"]

/-- The department table of `_get_alert_recipients`. -/
def email_dept_recipients : List (String × List String) :=
  [("production", ["production-manager@yourcompany.com"]),
   ("maintenance", ["maintenance-manager@yourcompany.com"]),
   ("warehouse", ["warehouse-manager@yourcompany.com"])]

/-- src/alert_service.py lines 315-333, `_get_alert_recipients`: defaults,
extended by the department entry under `record.department.lower()` when the
department is truthy. -/
def get_alert_recipients (record : PPEComplianceRecord) : List String :=
  match record.department with
  | none => email_default_recipients
  | some d =>
      if d = "" then email_default_recipients
      else email_default_recipients ++
        (email_dept_recipients.lookup (pyLower d)).getD []

/-- The default WhatsApp recipients of `_get_whatsapp_recipients`. -/
def whatsapp_default_recipients : List String := ["+1234567890", "+1234567891"]

/-- The department table of `_get_whatsapp_recipients`. -/
def whatsapp_dept_recipients : List (String × List String) :=
  [("production", ["+1234567892"]),
   ("maintenance", ["+1234567893"]),
   ("warehouse", ["+1234567894"])]

/-- src/alert_service.py lines 335-353, `_get_whatsapp_recipients`. -/
def get_whatsapp_recipients (record : PPEComplianceRecord) : List String :=
  match record.department with
  | none => whatsapp_default_recipients
  | some d =>
      if d = "" then whatsapp_default_recipients
      else whatsapp_default_recipients ++
        (whatsapp_dept_recipients.lookup (pyLower d)).getD []

/-- The alert-relevant settings of src/config.py: environment strings whose
unset default is the empty string (falsy in Python). -/
structure AlertSettings where
  SLACK_BOT_TOKEN : String := ""
  SLACK_CHANNEL_ID : String := ""
  TWILIO_ACCOUNT_SID : String := ""
  TWILIO_AUTH_TOKEN : String := ""
  SENDGRID_API_KEY : String := ""
  FROM_EMAIL : String := "safety@yourcompany.com"
  TWILIO_WHATSAPP_NUMBER : String := "whatsapp:+14155238886"

/-- The client fields of `AlertService`: `true` models a created client. -/
structure AlertService where
  slack_client : Bool
  twilio_client : Bool
  sendgrid_client : Bool

/-- src/alert_service.py lines 16-34, `AlertService.__init__`: each client is
created exactly when its credentials are truthy (Slack needs the bot token;
Twilio needs both the account SID and the auth token; SendGrid needs the API
key). -/
def AlertService.init (s : AlertSettings) : AlertService :=
  { slack_client := s.SLACK_BOT_TOKEN != "",
    twilio_client := s.TWILIO_ACCOUNT_SID != "" && s.TWILIO_AUTH_TOKEN != "",
    sendgrid_client := s.SENDGRID_API_KEY != "" }

/-- The Python exception classes distinguished by the dispatcher's handlers. -/
inductive PyError where
  | slackApiError
  | otherException
deriving DecidableEq

/-- Outcome oracle for the `slack_client.chat_postMessage` library call. -/
inductive SlackTransport where
  | success
  | apiError
  | raiseOther
deriving DecidableEq

/-- The `chat_postMessage` call: it either returns or raises `SlackApiError`
or some other exception. -/
def chat_postMessage : SlackTransport → Except PyError Unit
  | .success => .ok ()
  | .apiError => .error .slackApiError
  | .raiseOther => .error .otherException

/-- src/alert_service.py lines 36-60, `send_slack_alert`: short-circuit when
the Slack client or the channel id is missing; otherwise build the blocks and
post, with `except SlackApiError` and `except Exception` handlers both
returning `False`. -/
def send_slack_alert (svc : AlertService) (s : AlertSettings) (o : FmtOracle)
    (t : SlackTransport) (message : String) (record : PPEComplianceRecord) :
    Except PyError Bool :=
  if !svc.slack_client || s.SLACK_CHANNEL_ID == "" then .ok false
  else
    match (do
      let _blocks := create_slack_blocks o message record
      let _ ← chat_postMessage t
      pure true : Except PyError Bool) with
    | .ok b => .ok b
    | .error .slackApiError => .ok false
    | .error .otherException => .ok false

/-- Outcome oracle for `sendgrid_client.send`: a response with a status code,
or a raised exception. -/
inductive EmailTransport where
  | response (status_code : Nat)
  | raiseExc
deriving DecidableEq

/-- The `sendgrid_client.send(mail)` call. -/
def sendgrid_send : EmailTransport → Except PyError Nat
  | .response c => .ok c
  | .raiseExc => .error .otherException

/-- src/alert_service.py lines 133-165, `send_email_alert`: short-circuit when
the SendGrid client is missing; otherwise build subject/html/text/recipients,
send, return whether the status code is one of 200/201/202; a single
`except Exception` handler returns `False`. -/
def send_email_alert (svc : AlertService) (o : FmtOracle) (t : EmailTransport)
    (message : String) (record : PPEComplianceRecord) : Except PyError Bool :=
  if !svc.sendgrid_client then .ok false
  else
    match (do
      let _subject := "PPE Compliance Alert - " ++ record.worker_name ++
        " (" ++ record.worker_id ++ ")"
      let _html := create_email_html o message record
      let _text := create_email_text o message record
      let _recipients := get_alert_recipients record
      let status_code ← sendgrid_send t
      pure ([200, 201, 202].contains status_code) : Except PyError Bool) with
    | .ok b => .ok b
    | .error _ => .ok false

/-- Outcome oracle for one `twilio_client.messages.create` call, indexed by
the position of the recipient in the resolved list. -/
inductive TwilioTransport where
  | success
  | raiseExc
deriving DecidableEq

/-- Whether a delivery attempt returned without raising. -/
def twilioOk : TwilioTransport → Bool
  | .success => true
  | .raiseExc => false

/-- The per-recipient loop of `send_whatsapp_alert` (src/alert_service.py
lines 296-307): each attempt sits in its own `try`, a failure is logged and
the loop moves on; `i` is the position of the next recipient. -/
def whatsappSendLoop (deliver : Nat → TwilioTransport) :
    Nat → List String → Nat → Nat
  | _, [], success_count => success_count
  | i, _recipient :: rest, success_count =>
      match deliver i with
      | .success => whatsappSendLoop deliver (i+1) rest (success_count + 1)
      | .raiseExc => whatsappSendLoop deliver (i+1) rest success_count

/-- src/alert_service.py lines 259-313, `send_whatsapp_alert`: short-circuit
when the Twilio client is missing; return `False` when no recipients resolve;
otherwise attempt every recipient and return whether at least one attempt
succeeded; an outer `except Exception` handler returns `False`. -/
def send_whatsapp_alert (svc : AlertService) (o : FmtOracle)
    (deliver : Nat → TwilioTransport) (_message : String)
    (record : PPEComplianceRecord) : Except PyError Bool :=
  if !svc.twilio_client then .ok false
  else
    match (do
      let recipients := get_whatsapp_recipients record
      if recipients.isEmpty then pure false
      else
        let _body := whatsapp_message o record
        let success_count := whatsappSendLoop deliver 0 recipients 0
        pure (decide (success_count > 0)) : Except PyError Bool) with
    | .ok b => .ok b
    | .error _ => .ok false

/-- src/alert_service.py lines 355-368, `send_custom_alert`: the result dict,
built in the fixed order slack, email, whatsapp, holding an entry exactly for
each requested known channel. -/
def send_custom_alert (svc : AlertService) (s : AlertSettings) (o : FmtOracle)
    (tslack : SlackTransport) (temail : EmailTransport)
    (deliver : Nat → TwilioTransport) (message : String)
    (channels : List String) (record : PPEComplianceRecord) :
    Except PyError (List (String × Bool)) := do
  let results : List (String × Bool) := []
  let results ←
    if channels.contains "slack" then do
      let b ← send_slack_alert svc s o tslack message record
      pure (results ++ [("slack", b)])
    else pure results
  let results ←
    if channels.contains "email" then do
      let b ← send_email_alert svc o temail message record
      pure (results ++ [("email", b)])
    else pure results
  let results ←
    if channels.contains "whatsapp" then do
      let b ← send_whatsapp_alert svc o deliver message record
      pure (results ++ [("whatsapp", b)])
    else pure results
  pure results

/-- Whether a Slack post outcome yields `True` (only a clean return does). -/
def slackTransportOk : SlackTransport → Bool
  | .success => true
  | .apiError => false
  | .raiseOther => false

/-- Whether a SendGrid outcome yields `True`: a response with one of the
accepted status codes. -/
def emailTransportOk : EmailTransport → Bool
  | .response c => [200, 201, 202].contains c
  | .raiseExc => false

theorem send_slack_alert_eq (svc : AlertService) (s : AlertSettings)
    (o : FmtOracle) (t : SlackTransport) (message : String)
    (record : PPEComplianceRecord) :
    send_slack_alert svc s o t message record =
      .ok ((svc.slack_client && !(s.SLACK_CHANNEL_ID == "")) &&
        slackTransportOk t) := by
  rw [send_slack_alert]
  cases hc : svc.slack_client <;> cases hch : s.SLACK_CHANNEL_ID == "" <;>
    cases t <;>
    simp [hc, hch, chat_postMessage, slackTransportOk, Bind.bind, Except.bind,
      pure, Except.pure]

theorem send_email_alert_eq (svc : AlertService) (o : FmtOracle)
    (t : EmailTransport) (message : String) (record : PPEComplianceRecord) :
    send_email_alert svc o t message record =
      .ok (svc.sendgrid_client && emailTransportOk t) := by
  rw [send_email_alert]
  cases hc : svc.sendgrid_client <;> cases t <;>
    simp [hc, sendgrid_send, emailTransportOk, Bind.bind, Except.bind, pure,
      Except.pure]

theorem get_whatsapp_recipients_isEmpty (record : PPEComplianceRecord) :
    (get_whatsapp_recipients record).isEmpty = false := by
  rw [get_whatsapp_recipients]
  cases record.department with
  | none => rfl
  | some d =>
      by_cases hd : d = "" <;> simp [hd, whatsapp_default_recipients]

theorem send_whatsapp_alert_eq (svc : AlertService) (o : FmtOracle)
    (deliver : Nat → TwilioTransport) (message : String)
    (record : PPEComplianceRecord) :
    send_whatsapp_alert svc o deliver message record =
      .ok (svc.twilio_client &&
        decide (0 < whatsappSendLoop deliver 0 (get_whatsapp_recipients record) 0)) := by
  rw [send_whatsapp_alert]
  cases hc : svc.twilio_client <;>
    simp [hc, get_whatsapp_recipients_isEmpty, Bind.bind, Except.bind, pure,
      Except.pure]

/-- A delivery loop in which every attempt raises counts no success. -/
theorem whatsappSendLoop_all_raise (rs : List String) :
    ∀ (i acc : Nat), whatsappSendLoop (fun _ => .raiseExc) i rs acc = acc := by
  induction rs with
  | nil => intro i acc; rfl
  | cons r rest ih => intro i acc; simpa [whatsappSendLoop] using ih (i+1) acc

/-- C2: each channel send short-circuits to `ok false` when its integration is
not configured, never produces an exception for any transport outcome, and
converts every transport error into `ok false`. -/
theorem C2_channel_error_isolation (svc : AlertService) (s : AlertSettings)
    (o : FmtOracle) (tslack : SlackTransport) (temail : EmailTransport)
    (deliver : Nat → TwilioTransport) (message : String)
    (record : PPEComplianceRecord) :
    ((svc.slack_client = false ∨ s.SLACK_CHANNEL_ID = "") →
      send_slack_alert svc s o tslack message record = .ok false) ∧
    (svc.sendgrid_client = false →
      send_email_alert svc o temail message record = .ok false) ∧
    (svc.twilio_client = false →
      send_whatsapp_alert svc o deliver message record = .ok false) ∧
    (∃ b, send_slack_alert svc s o tslack message record = .ok b) ∧
    (∃ b, send_email_alert svc o temail message record = .ok b) ∧
    (∃ b, send_whatsapp_alert svc o deliver message record = .ok b) ∧
    (send_slack_alert svc s o .apiError message record = .ok false) ∧
    (send_slack_alert svc s o .raiseOther message record = .ok false) ∧
    (send_email_alert svc o .raiseExc message record = .ok false) ∧
    (send_whatsapp_alert svc o (fun _ => .raiseExc) message record = .ok false) := by
  refine ⟨?_, ?_, ?_, ⟨_, send_slack_alert_eq svc s o tslack message record⟩,
    ⟨_, send_email_alert_eq svc o temail message record⟩,
    ⟨_, send_whatsapp_alert_eq svc o deliver message record⟩, ?_, ?_, ?_, ?_⟩
  · rintro (h | h) <;> simp [send_slack_alert_eq, h]
  · intro h; simp [send_email_alert_eq, h]
  · intro h; simp [send_whatsapp_alert_eq, h]
  · simp [send_slack_alert_eq, slackTransportOk]
  · simp [send_slack_alert_eq, slackTransportOk]
  · simp [send_email_alert_eq, emailTransportOk]
  · simp [send_whatsapp_alert_eq, whatsappSendLoop_all_raise]

/-- A sample formatting oracle for concrete instances. -/
def sampleOracle : FmtOracle :=
  ⟨fun _ => "75.0", fun _ => "90.0%", fun _ => "2024-01-01 00:00:00"⟩

/-- Witness for C2: an unconfigured service short-circuits each channel, and a
configured Slack send with an API error is converted to `ok false`. -/
theorem C2_channel_error_isolation_witness :
    (send_slack_alert ⟨false, false, false⟩ {} sampleOracle .success "m" {} =
      .ok false) ∧
    (send_email_alert ⟨false, false, false⟩ sampleOracle (.response 200) "m" {} =
      .ok false) ∧
    (send_whatsapp_alert ⟨false, false, false⟩ sampleOracle (fun _ => .success)
      "m" {} = .ok false) ∧
    (send_slack_alert ⟨true, true, true⟩ { SLACK_CHANNEL_ID := "C123" }
      sampleOracle .apiError "m" {} = .ok false) := by
  have h1 := C2_channel_error_isolation ⟨false, false, false⟩ {} sampleOracle
    .success (.response 200) (fun _ => .success) "m" {}
  have h2 := C2_channel_error_isolation ⟨true, true, true⟩
    { SLACK_CHANNEL_ID := "C123" } sampleOracle .apiError (.response 200)
    (fun _ => .success) "m" {}
  exact ⟨h1.1 (Or.inl rfl), h1.2.1 rfl, h1.2.2.1 rfl, h2.2.2.2.2.2.2.1⟩

/-- The delivery loop visits every recipient position: its result is the
count of positions whose delivery succeeds, independently of failures at
earlier positions. -/
theorem whatsappSendLoop_count (d : Nat → TwilioTransport) (rs : List String) :
    ∀ (i acc : Nat), whatsappSendLoop d i rs acc =
      acc + (List.range rs.length).countP (fun j => twilioOk (d (i + j))) := by
  induction rs with
  | nil => intro i acc; simp [whatsappSendLoop]
  | cons r rest ih =>
      intro i acc
      have hcount : (List.range (rest.length + 1)).countP
          (fun j => twilioOk (d (i + j))) =
          (if twilioOk (d i) then 1 else 0) +
            (List.range rest.length).countP (fun j => twilioOk (d (i + 1 + j))) := by
        rw [List.range_succ_eq_map, List.countP_cons, List.countP_map]
        have hcongr : (List.range rest.length).countP
            ((fun j => twilioOk (d (i + j))) ∘ Nat.succ) =
            (List.range rest.length).countP (fun j => twilioOk (d (i + 1 + j))) := by
          apply List.countP_congr
          intro a _
          simp only [Function.comp_apply]
          rw [show i + Nat.succ a = i + 1 + a by omega]
        rw [hcongr]
        simp only [Nat.add_zero]
        omega
      cases hd : d i with
      | success =>
          rw [show whatsappSendLoop d i (r :: rest) acc =
            whatsappSendLoop d (i+1) rest (acc+1) by rw [whatsappSendLoop, hd]]
          rw [ih (i+1) (acc+1), List.length_cons, hcount, hd]
          simp [twilioOk]
          omega
      | raiseExc =>
          rw [show whatsappSendLoop d i (r :: rest) acc =
            whatsappSendLoop d (i+1) rest acc by rw [whatsappSendLoop, hd]]
          rw [ih (i+1) acc, List.length_cons, hcount, hd]
          simp [twilioOk]

theorem twilioOk_iff (t : TwilioTransport) :
    twilioOk t = true ↔ t = TwilioTransport.success := by
  cases t <;> simp [twilioOk]

/-- C3: with Twilio configured, the WhatsApp send attempts every resolved
recipient in order (its success count sums over all positions, so a failure
never blocks later recipients) and returns ok true exactly when at least one
recipient delivery succeeds. -/
theorem C3_whatsapp_fanout (svc : AlertService) (o : FmtOracle)
    (deliver : Nat → TwilioTransport) (message : String)
    (record : PPEComplianceRecord) (h : svc.twilio_client = true) :
    (∀ (rs : List String) (d : Nat → TwilioTransport) (i acc : Nat),
      whatsappSendLoop d i rs acc =
        acc + (List.range rs.length).countP (fun j => twilioOk (d (i + j)))) ∧
    (∃ b, send_whatsapp_alert svc o deliver message record = .ok b ∧
      (b = true ↔ ∃ j, j < (get_whatsapp_recipients record).length ∧
        deliver j = TwilioTransport.success)) := by
  refine ⟨fun rs d i acc => whatsappSendLoop_count d rs i acc, ?_⟩
  refine ⟨_, send_whatsapp_alert_eq svc o deliver message record, ?_⟩
  rw [h, Bool.true_and, decide_eq_true_eq,
    whatsappSendLoop_count deliver (get_whatsapp_recipients record) 0 0]
  simp only [Nat.zero_add, List.countP_pos_iff, List.mem_range, twilioOk_iff]

/-- Witness for C3: two default recipients, all deliveries succeed. -/
theorem C3_whatsapp_fanout_witness :
    send_whatsapp_alert ⟨false, true, false⟩ sampleOracle
      (fun _ => TwilioTransport.success) "m" {} = .ok true := by
  obtain ⟨b, hb, hiff⟩ := (C3_whatsapp_fanout ⟨false, true, false⟩ sampleOracle
    (fun _ => TwilioTransport.success) "m" {} rfl).2
  have hlen : 0 < (get_whatsapp_recipients {}).length := by
    rw [show get_whatsapp_recipients {} = whatsapp_default_recipients from rfl]
    simp [whatsapp_default_recipients]
  have : b = true := hiff.mpr ⟨0, hlen, rfl⟩
  rw [this] at hb
  exact hb

theorem contains_iff_mem (l : List String) (a : String) :
    l.contains a = true ↔ a ∈ l := by
  simp [List.elem_iff]

theorem contains_false_iff (l : List String) (a : String) :
    l.contains a = false ↔ a ∉ l := by
  rw [← contains_iff_mem]
  cases l.contains a <;> simp

theorem mem_filter_contains (l channels : List String) (c : String) :
    c ∈ l.filter (fun x => channels.contains x) ↔ (c ∈ channels ∧ c ∈ l) := by
  rw [List.mem_filter, contains_iff_mem]
  exact and_comm

theorem send_custom_alert_eq (svc : AlertService) (s : AlertSettings)
    (o : FmtOracle) (tslack : SlackTransport) (temail : EmailTransport)
    (deliver : Nat → TwilioTransport) (message : String)
    (channels : List String) (record : PPEComplianceRecord) :
    send_custom_alert svc s o tslack temail deliver message channels record =
      .ok ((if channels.contains "slack" then
              [("slack", (svc.slack_client && !(s.SLACK_CHANNEL_ID == "")) &&
                slackTransportOk tslack)] else []) ++
           (if channels.contains "email" then
              [("email", svc.sendgrid_client && emailTransportOk temail)]
            else []) ++
           (if channels.contains "whatsapp" then
              [("whatsapp", svc.twilio_client && decide (0 <
                whatsappSendLoop deliver 0 (get_whatsapp_recipients record) 0))]
            else [])) := by
  by_cases h1 : "slack" ∈ channels <;>
    by_cases h2 : "email" ∈ channels <;>
    by_cases h3 : "whatsapp" ∈ channels <;>
    simp [send_custom_alert, h1, h2, h3, Bind.bind, Except.bind, pure,
      Except.pure, send_slack_alert_eq, send_email_alert_eq,
      send_whatsapp_alert_eq]

/-- C4: the result mapping of `send_custom_alert` holds an entry exactly for
the requested channels among slack/email/whatsapp (in that fixed order), each
mapped to the outcome of its send attempt; unrequested channels are absent,
not `false`. -/
theorem C4_custom_channels (svc : AlertService) (s : AlertSettings)
    (o : FmtOracle) (tslack : SlackTransport) (temail : EmailTransport)
    (deliver : Nat → TwilioTransport) (message : String)
    (channels : List String) (record : PPEComplianceRecord) :
    ∃ m : List (String × Bool),
      send_custom_alert svc s o tslack temail deliver message channels record =
        .ok m ∧
      m.map Prod.fst =
        (["slack", "email", "whatsapp"] : List String).filter
          (fun c => channels.contains c) ∧
      (∀ c : String, c ∈ m.map Prod.fst ↔
        (c ∈ channels ∧ c ∈ (["slack", "email", "whatsapp"] : List String))) ∧
      (∀ b, channels.contains "slack" = true →
        send_slack_alert svc s o tslack message record = .ok b →
        m.lookup "slack" = some b) ∧
      (channels.contains "slack" = false → m.lookup "slack" = none) ∧
      (∀ b, channels.contains "email" = true →
        send_email_alert svc o temail message record = .ok b →
        m.lookup "email" = some b) ∧
      (channels.contains "email" = false → m.lookup "email" = none) ∧
      (∀ b, channels.contains "whatsapp" = true →
        send_whatsapp_alert svc o deliver message record = .ok b →
        m.lookup "whatsapp" = some b) ∧
      (channels.contains "whatsapp" = false → m.lookup "whatsapp" = none) := by
  have hk : ((if channels.contains "slack" then
        [("slack", (svc.slack_client && !(s.SLACK_CHANNEL_ID == "")) &&
          slackTransportOk tslack)] else []) ++
      (if channels.contains "email" then
        [("email", svc.sendgrid_client && emailTransportOk temail)] else []) ++
      (if channels.contains "whatsapp" then
        [("whatsapp", svc.twilio_client && decide (0 <
          whatsappSendLoop deliver 0 (get_whatsapp_recipients record) 0))]
       else [])).map Prod.fst =
      (["slack", "email", "whatsapp"] : List String).filter
        (fun c => channels.contains c) := by
    by_cases h1 : "slack" ∈ channels <;>
      by_cases h2 : "email" ∈ channels <;>
      by_cases h3 : "whatsapp" ∈ channels <;>
      simp [h1, h2, h3, List.filter_cons]
  refine ⟨_, send_custom_alert_eq svc s o tslack temail deliver message
    channels record, hk, ?_, ?_, ?_, ?_, ?_, ?_, ?_⟩
  · intro c
    rw [hk]
    exact mem_filter_contains _ channels c
  · intro b h1 hsend
    have h1m : "slack" ∈ channels := (contains_iff_mem _ _).mp h1
    rw [send_slack_alert_eq] at hsend
    injection hsend with hb
    rw [← hb]
    simp [h1m, List.lookup]
  · intro h1
    have h1m : "slack" ∉ channels := (contains_false_iff _ _).mp h1
    by_cases h2 : "email" ∈ channels <;>
      by_cases h3 : "whatsapp" ∈ channels <;>
      simp [h1m, h2, h3, List.lookup]
  · intro b h2 hsend
    have h2m : "email" ∈ channels := (contains_iff_mem _ _).mp h2
    rw [send_email_alert_eq] at hsend
    injection hsend with hb
    rw [← hb]
    by_cases h1 : "slack" ∈ channels <;> simp [h1, h2m, List.lookup]
  · intro h2
    have h2m : "email" ∉ channels := (contains_false_iff _ _).mp h2
    by_cases h1 : "slack" ∈ channels <;>
      by_cases h3 : "whatsapp" ∈ channels <;>
      simp [h1, h2m, h3, List.lookup]
  · intro b h3 hsend
    have h3m : "whatsapp" ∈ channels := (contains_iff_mem _ _).mp h3
    rw [send_whatsapp_alert_eq] at hsend
    injection hsend with hb
    rw [← hb]
    by_cases h1 : "slack" ∈ channels <;>
      by_cases h2 : "email" ∈ channels <;>
      simp [h1, h2, h3m, List.lookup]
  · intro h3
    have h3m : "whatsapp" ∉ channels := (contains_false_iff _ _).mp h3
    by_cases h1 : "slack" ∈ channels <;>
      by_cases h2 : "email" ∈ channels <;>
      simp [h1, h2, h3m, List.lookup]

/-- Witness for C4: channels = [slack, whatsapp] on an unconfigured service:
slack and whatsapp entries present (false), email absent. -/
theorem C4_custom_channels_witness :
    ∃ m : List (String × Bool),
      send_custom_alert ⟨false, false, false⟩ {} sampleOracle .success
        (.response 200) (fun _ => TwilioTransport.success) "m"
        ["slack", "whatsapp"] {} = .ok m ∧
      m.lookup "slack" = some false ∧
      m.lookup "email" = none ∧
      m.lookup "whatsapp" = some false := by
  obtain ⟨m, hm, _hkeys, _hiff, hs, _, _, he, hw, _⟩ :=
    C4_custom_channels ⟨false, false, false⟩ {} sampleOracle .success
      (.response 200) (fun _ => TwilioTransport.success) "m"
      ["slack", "whatsapp"] {}
  refine ⟨m, hm, ?_, ?_, ?_⟩
  · exact hs false rfl (by simp [send_slack_alert_eq])
  · exact he rfl
  · exact hw false rfl (by simp [send_whatsapp_alert_eq])

/-- C8: each channel's recipient resolver returns the channel defaults with
the department-specific entries appended exactly when the lower-cased
department is a key of the static table; an absent, empty or unknown
department yields only the defaults (lookup is case-insensitive, e.g.
department "Production" hits the key "production"). -/
theorem C8_recipient_resolution (record : PPEComplianceRecord) :
    (record.department = none →
      get_alert_recipients record = email_default_recipients ∧
      get_whatsapp_recipients record = whatsapp_default_recipients) ∧
    (∀ d extra, record.department = some d →
      email_dept_recipients.lookup (pyLower d) = some extra →
      get_alert_recipients record = email_default_recipients ++ extra) ∧
    (∀ d, record.department = some d →
      email_dept_recipients.lookup (pyLower d) = none →
      get_alert_recipients record = email_default_recipients) ∧
    (∀ d extra, record.department = some d →
      whatsapp_dept_recipients.lookup (pyLower d) = some extra →
      get_whatsapp_recipients record = whatsapp_default_recipients ++ extra) ∧
    (∀ d, record.department = some d →
      whatsapp_dept_recipients.lookup (pyLower d) = none →
      get_whatsapp_recipients record = whatsapp_default_recipients) ∧
    get_alert_recipients { department := some "Production" } =
      email_default_recipients ++ ["production-manager@yourcompany.com"] ∧
    get_whatsapp_recipients { department := some "Production" } =
      whatsapp_default_recipients ++ ["+1234567892"] := by
  refine ⟨?_, ?_, ?_, ?_, ?_, by decide, by decide⟩
  · intro h
    constructor <;> simp [get_alert_recipients, get_whatsapp_recipients, h]
  · intro d extra h hlk
    by_cases hd : d = ""
    · subst hd
      rw [show email_dept_recipients.lookup (pyLower "") = none by decide]
        at hlk
      cases hlk
    · simp [get_alert_recipients, h, hd, hlk]
  · intro d h hlk
    by_cases hd : d = "" <;> simp [get_alert_recipients, h, hd, hlk]
  · intro d extra h hlk
    by_cases hd : d = ""
    · subst hd
      rw [show whatsapp_dept_recipients.lookup (pyLower "") = none by decide]
        at hlk
      cases hlk
    · simp [get_whatsapp_recipients, h, hd, hlk]
  · intro d h hlk
    by_cases hd : d = "" <;> simp [get_whatsapp_recipients, h, hd, hlk]

/-- Witness for C8: the mixed-case department "Production" resolves to the
defaults plus the production entry, on both channels. -/
theorem C8_recipient_resolution_witness :
    get_alert_recipients { department := some "Production" } =
      email_default_recipients ++ ["production-manager@yourcompany.com"] ∧
    get_whatsapp_recipients { department := some "Production" } =
      whatsapp_default_recipients ++ ["+1234567892"] := by
  refine ⟨(C8_recipient_resolution { department := some "Production" }).2.1
    "Production" ["production-manager@yourcompany.com"] rfl (by decide),
    (C8_recipient_resolution { department := some "Production" }).2.2.2.1
    "Production" ["+1234567892"] rfl (by decide)⟩

/-- C9 counterexample: in the WhatsApp rendering the shift is not rendered at
all — the message is independent of the record's shift and contains no
occurrence of "Shift" — so an absent shift is not rendered as the literal
string "Unknown" there, contrary to the claim. -/
theorem C9_unknown_rendering_counterexample :
    whatsapp_message sampleOracle { shift := some "Night" } =
      whatsapp_message sampleOracle {} ∧
    pyIn "Shift" (whatsapp_message sampleOracle {}) = false ∧
    pyIn "Unknown" (whatsapp_message sampleOracle {}) = true := by
  refine ⟨rfl, by decide, by decide⟩

/-- C9 (amended): in the Slack blocks and the email HTML/text renderings an
absent department, location or shift renders as the literal string "Unknown",
and in the WhatsApp message an absent department or location renders as
"Unknown"; the WhatsApp message has no shift field at all (it is independent
of the record's shift). -/
theorem C9_unknown_rendering_amended (o : FmtOracle) (message : String)
    (r : PPEComplianceRecord) :
    (create_slack_blocks o message { r with department := none } =
      create_slack_blocks o message { r with department := some "Unknown" }) ∧
    (create_slack_blocks o message { r with location := none } =
      create_slack_blocks o message { r with location := some "Unknown" }) ∧
    (create_slack_blocks o message { r with shift := none } =
      create_slack_blocks o message { r with shift := some "Unknown" }) ∧
    (create_email_html o message { r with department := none } =
      create_email_html o message { r with department := some "Unknown" }) ∧
    (create_email_html o message { r with location := none } =
      create_email_html o message { r with location := some "Unknown" }) ∧
    (create_email_html o message { r with shift := none } =
      create_email_html o message { r with shift := some "Unknown" }) ∧
    (create_email_text o message { r with department := none } =
      create_email_text o message { r with department := some "Unknown" }) ∧
    (create_email_text o message { r with location := none } =
      create_email_text o message { r with location := some "Unknown" }) ∧
    (create_email_text o message { r with shift := none } =
      create_email_text o message { r with shift := some "Unknown" }) ∧
    (whatsapp_message o { r with department := none } =
      whatsapp_message o { r with department := some "Unknown" }) ∧
    (whatsapp_message o { r with location := none } =
      whatsapp_message o { r with location := some "Unknown" }) ∧
    (∀ sh, whatsapp_message o { r with shift := sh } = whatsapp_message o r) ∧
    pyIn "*Department:* Unknown" (whatsapp_message sampleOracle {}) = true ∧
    pyIn "*Location:* Unknown" (whatsapp_message sampleOracle {}) = true ∧
    pyIn "Shift" (whatsapp_message sampleOracle {}) = false ∧
    pyIn "Shift: Unknown" (create_email_text sampleOracle "m" {}) = true ∧
    pyIn "Shift:</strong> Unknown" (create_email_html sampleOracle "m" {}) = true := by
  refine ⟨rfl, rfl, rfl, rfl, rfl, rfl, rfl, rfl, rfl, rfl, rfl,
    fun sh => rfl, by decide, by decide, by decide, by decide, by decide⟩

end SmartPPE
